import Mathlib

/-!
Verification development for the job-portal backend.

This file gives a shallow embedding, in Lean 4, of the parts of the
backend that the specification makes precise claims about:

* the profile-completion scorer (`app/routers/profile.py`,
  `calculate_profile_completion`);
* the application-creation handler and the database index layout
  (`app/routers/applications.py`, `app/database/indexes.py`);
* the job-update handler (`app/routers/job.py`, `update_job`);
* the registration and login handlers and their input validators
  (`app/routers/auth.py`);
* token verification (`app/utils/auth.py`, `get_current_user`);
* the job-alert query builder and the general job-search query
  (`app/routers/job_alert.py`, `app/routers/job.py`).

Conventions used throughout:

* Python integers are modelled as `ℕ`/`ℤ`/`ℚ` (they are arbitrary
  precision, so no overflow modelling is needed).
* The scorer performs `earned_points / total_points` and `* 100` in
  IEEE-754 binary64 ("double") arithmetic, because `0.5` and `/` in
  Python produce floats.  Those two operations are modelled exactly by
  `roundB64`, round-to-nearest-even at 53 bits of precision, defined
  below over `ℚ`.  All additions feeding them involve only integers and
  half-integers of small magnitude, which binary64 addition represents
  and adds exactly, so the accumulators are modelled as exact rationals.
  (Overflow and subnormal behaviour of binary64 are irrelevant in the
  value ranges that occur and are not modelled.)
* Handlers that raise `HTTPException` are modelled as functions into
  `Except HTTPError α`, with the status code and detail carried along.
* The MongoDB collections are modelled as lists of documents, and the
  handlers take the store as an explicit argument and return the new
  store where they write.
-/

namespace JobPortal

/-! ### Round-to-nearest-even at 53 bits (binary64 model)

`rhe s` rounds a rational to the nearest integer, ties to even.
`roundB64 x` rounds a positive rational to 53 significant bits:
with `e = Int.log 2 x` (so `2^e ≤ x < 2^(e+1)`), it scales `x` into
`[2^52, 2^53)`, rounds to an integer with `rhe`, and scales back.
This is exactly IEEE-754 binary64 rounding for results in the normal
range, which is the only range the scorer produces. -/

def rhe (s : ℚ) : ℤ :=
  if s - ⌊s⌋ < 1/2 then ⌊s⌋
  else if 1/2 < s - ⌊s⌋ then ⌊s⌋ + 1
  else if Even ⌊s⌋ then ⌊s⌋ else ⌊s⌋ + 1

def roundB64 (x : ℚ) : ℚ :=
  if 0 < x then (rhe (x * 2 ^ (52 - Int.log 2 x)) : ℚ) * 2 ^ (Int.log 2 x - 52) else 0

/-! ### Profile documents and the completion scorer

Embeds `calculate_profile_completion` from `app/routers/profile.py`
(lines 15-76).  The function receives a loosely-typed dict, so every
scalar field is modelled as `Option String` (absent or present).

* Required/optional scalar fields are counted when
  `profile_data.get(field) and str(profile_data.get(field)).strip()` is
  truthy, i.e. the value is present and non-blank after stripping
  whitespace (`filled`).
* Section entries are counted when their two key sub-fields are truthy
  strings (`truthy` — the code does not strip these).
* `pyStrip` models Python `str.strip()` (ASCII whitespace; the Unicode
  extras Python also strips do not occur in any value considered here).
-/

def pyStrip (l : List Char) : List Char :=
  ((l.dropWhile Char.isWhitespace).reverse.dropWhile Char.isWhitespace).reverse

def filled : Option String → Bool
  | none => false
  | some s => pyStrip s.data ≠ ([] : List Char)

def truthy : Option String → Bool
  | none => false
  | some s => s ≠ ""

structure ExpEntry where
  title : Option String
  company : Option String
deriving DecidableEq

structure EduEntry where
  school : Option String
  degree : Option String
deriving DecidableEq

structure ProjEntry where
  title : Option String
  description : Option String
deriving DecidableEq

structure ProfileDoc where
  fullName : Option String
  email : Option String
  phone : Option String
  address : Option String
  headline : Option String
  summary : Option String
  profilePicture : Option String
  experience : List ExpEntry
  education : List EduEntry
  skills : List String
  projects : List ProjEntry
deriving DecidableEq

def goodExp (x : ExpEntry) : Bool := truthy x.title && truthy x.company

def goodEdu (x : EduEntry) : Bool := truthy x.school && truthy x.degree

def goodProj (x : ProjEntry) : Bool := truthy x.title && truthy x.description

/-- Points earned by the two required fields (2 each, lines 21-25). -/
def requiredEarned (p : ProfileDoc) : ℕ :=
  (if filled p.fullName then 2 else 0) + (if filled p.email then 2 else 0)

/-- Points earned by the five optional scalar fields (1 each, lines 28-32). -/
def optionalEarned (p : ProfileDoc) : ℕ :=
  (if filled p.phone then 1 else 0) + (if filled p.address then 1 else 0) +
    (if filled p.headline then 1 else 0) + (if filled p.summary then 1 else 0) +
    (if filled p.profilePicture then 1 else 0)

/-- Experience entries with title and company earn 2 each (lines 35-41). -/
def expEarned (p : ProfileDoc) : ℕ := 2 * (p.experience.filter goodExp).length

/-- Every examined experience entry adds 2 to the denominator, but only
when the section is non-empty (lines 35-41). -/
def expTotal (p : ProfileDoc) : ℕ :=
  if p.experience.isEmpty then 0 else 2 * p.experience.length

def eduEarned (p : ProfileDoc) : ℕ := 2 * (p.education.filter goodEdu).length

def eduTotal (p : ProfileDoc) : ℕ :=
  if p.education.isEmpty then 0 else 2 * p.education.length

/-- Skills earn 0.5 each capped at 10; the cap and the fixed denominator
of 10 apply only when the list is non-empty (lines 53-58). -/
def skillsEarned (p : ProfileDoc) : ℚ :=
  if p.skills.isEmpty then 0 else min ((p.skills.length : ℚ) * (1/2)) 10

def skillsTotal (p : ProfileDoc) : ℕ := if p.skills.isEmpty then 0 else 10

def projEarned (p : ProfileDoc) : ℕ := 2 * (p.projects.filter goodProj).length

/-- Projects add 2 per entry to the denominator when present; an absent
section adds a flat 4 ("assume 2 projects", lines 61-70). -/
def projTotal (p : ProfileDoc) : ℕ :=
  if p.projects.isEmpty then 4 else 2 * p.projects.length

/-- The running float accumulator `earned_points`.  All its addends are
half-integers far below `2^52`, which binary64 represents and adds
exactly, so the accumulator is an exact rational. -/
def earnedPoints (p : ProfileDoc) : ℚ :=
  (requiredEarned p : ℚ) + (optionalEarned p : ℚ) + (expEarned p : ℚ) +
    (eduEarned p : ℚ) + skillsEarned p + (projEarned p : ℚ)

/-- The running int accumulator `total_points` (Python int, exact).  The
two required fields contribute 2 each and the five optional fields 1
each unconditionally, hence the constant 9. -/
def totalPoints (p : ProfileDoc) : ℕ :=
  9 + expTotal p + eduTotal p + skillsTotal p + projTotal p

/-- The value `int((earned_points / total_points) * 100)` of line 75:
one binary64 division, one binary64 multiplication by 100, then
truncation (which on this nonnegative value is the floor). -/
def b64ScoreVal (e t : ℚ) : ℤ := ⌊roundB64 (roundB64 (e / t) * 100)⌋

/-- Lines 72-76: `calculate_profile_completion(profile_data)`. -/
def calculate_profile_completion (p : ProfileDoc) : ℤ :=
  if totalPoints p = 0 then 0
  else min (b64ScoreVal (earnedPoints p) (totalPoints p)) 100

/-- Modelled from the spec: the score formula as the specification words
it — "floor(100 × numerator/denominator), clamped to [0, 100]; defined
as 0 when denominator is 0" — in exact rational arithmetic.  Used only
to compare the code's floating-point result against the spec formula
(the lower clamp never binds because the value is nonnegative). -/
def exactCompletionScore (p : ProfileDoc) : ℤ :=
  if totalPoints p = 0 then 0
  else min ⌊100 * earnedPoints p / (totalPoints p : ℚ)⌋ 100

/-- The five optional scalar fields of the scorer. -/
inductive OptField where
  | phone | address | headline | summaryField | picture
deriving DecidableEq

def getOptField (p : ProfileDoc) : OptField → Option String
  | .phone => p.phone
  | .address => p.address
  | .headline => p.headline
  | .summaryField => p.summary
  | .picture => p.profilePicture

/-- Fill one optional scalar field, leaving all other content unchanged. -/
def setOptField (p : ProfileDoc) (f : OptField) (v : String) : ProfileDoc :=
  match f with
  | .phone => { p with phone := some v }
  | .address => { p with address := some v }
  | .headline => { p with headline := some v }
  | .summaryField => { p with summary := some v }
  | .picture => { p with profilePicture := some v }

/-- A profile with no sections and no fields. -/
def emptyProfile : ProfileDoc :=
  ⟨none, none, none, none, none, none, none, [], [], [], []⟩

/-- Counterexample profile for the exact-floor claim: both required and
all five optional fields filled, one complete education entry, seven
skills, no experience and no projects.  Earned points
4 + 5 + 2 + 3.5 = 14.5, total points 4 + 5 + 2 + 10 + 4 = 25. -/
def floorGapProfile : ProfileDoc :=
  ⟨some "Ada", some "ada@example.com", some "555", some "Street 1", some "Dev",
    some "Text", some "pic.png", [], [⟨some "MIT", some "BSc"⟩],
    ["a", "b", "c", "d", "e", "f", "g"], []⟩

/-- Counterexample profile for the denominator bound: a single project
and nothing else, so the denominator is 9 + 2 = 11. -/
def oneProjectProfile : ProfileDoc :=
  ⟨none, none, none, none, none, none, none, [], [], [],
    [⟨some "App", some "Demo"⟩]⟩

/-! ### HTTP error outcomes

Handlers that raise `fastapi.HTTPException(status_code, detail)` are
modelled as `Except HTTPError α`. -/

structure HTTPError where
  status : ℕ
  detail : String
deriving DecidableEq

/-! ### Registration and login (`app/routers/auth.py`)

`ObjectId`s are modelled as `ℕ` surrogates.  `bcrypt` hashing and
verification are abstracted as function parameters (`hashFn`,
`verify`): no claim depends on properties of the hash itself. -/

/-- Character class `[a-zA-Z0-9._%+-]` of the email regex. -/
def emailLocalChar (c : Char) : Bool :=
  c.isAlpha || c.isDigit || c = Char.ofNat 46 || c = Char.ofNat 95 ||
    c = Char.ofNat 37 || c = Char.ofNat 43 || c = Char.ofNat 45

/-- Character class `[a-zA-Z0-9.-]` of the email regex. -/
def emailDomainChar (c : Char) : Bool :=
  c.isAlpha || c.isDigit || c = Char.ofNat 46 || c = Char.ofNat 45

/-- Acceptance of `[a-zA-Z0-9.-]+\.[a-zA-Z]{2,}$` on the part after the
`@`: some split point yields a non-empty domain-char prefix, a literal
dot, and a final run of two or more letters. -/
def emailTailOk (r : List Char) : Bool :=
  (List.range r.length).any fun i =>
    decide (r.take i ≠ []) && (r.take i).all emailDomainChar &&
      match r.drop i with
      | c :: t => c = Char.ofNat 46 && decide (2 ≤ t.length) && t.all Char.isAlpha
      | [] => false

/-- Lines 21-23: `validate_email`, the acceptance set of the regex
`^[a-zA-Z0-9._%+-]+@[a-zA-Z0-9.-]+\.[a-zA-Z]{2,}$` with `re.match`.
(The `$`-before-final-newline quirk of Python regexes cannot fire here:
pydantic validates the field as `EmailStr` before the handler runs, so
no trailing newline reaches this function.) -/
def validate_email (s : String) : Bool :=
  (List.range s.data.length).any fun j =>
    decide (s.data.take j ≠ []) && (s.data.take j).all emailLocalChar &&
      match s.data.drop j with
      | c :: r => c = Char.ofNat 64 && emailTailOk r
      | [] => false

/-- The special-character class `[!@#$%^&*(),.?":\x7b\x7d|<>]` of the
password regex (codes 34, 123, 125 are the double quote and braces). -/
def passwordSpecialChars : List Char :=
  [Char.ofNat 33, Char.ofNat 64, Char.ofNat 35, Char.ofNat 36, Char.ofNat 37,
    Char.ofNat 94, Char.ofNat 38, Char.ofNat 42, Char.ofNat 40, Char.ofNat 41,
    Char.ofNat 44, Char.ofNat 46, Char.ofNat 63, Char.ofNat 34, Char.ofNat 58,
    Char.ofNat 123, Char.ofNat 125, Char.ofNat 124, Char.ofNat 60, Char.ofNat 62]

/-- Lines 25-35: `validate_password`.  The minimum length is counted in
characters (`len(password)`), the classes by `re.search`. -/
def validate_password (pw : String) : Bool :=
  if pw.length < 8 then false
  else if !(pw.data.any Char.isUpper) then false
  else if !(pw.data.any Char.isDigit) then false
  else if !(pw.data.any passwordSpecialChars.contains) then false
  else true

/-- Lines 37-40: `validate_mobile`, the regex `^\d{10}$`: exactly ten
digits (ASCII-digit model of `\d`). -/
def validate_mobile (m : String) : Bool :=
  decide (m.length = 10) && m.data.all Char.isDigit

/-- Python `len(s.encode("utf-8"))`. -/
def utf8Len (s : String) : ℕ := (s.data.map Char.utf8Size).sum

structure UserDoc where
  id : ℕ
  email : String
  full_name : String
  role : String
  hashed_password : String
  is_active : Bool
  is_verified : Bool
deriving DecidableEq

structure RegisterInput where
  email : String
  full_name : String
  role : String
  password : String
  mobile : String
deriving DecidableEq

/-- Lines 42-133: the `register` handler.  Validation order follows the
source: email format, password byte length, password strength, mobile,
role (role membership is checked against the `UserRole` enum; the
pydantic parse and the in-handler check reject the same strings, and
both failures surface as a 4xx validation error, modelled as 400).
The final test models the unique index on `users.email`
(`indexes.py` line 37): `insert_one` raises a duplicate-key error,
caught at lines 98-108 and mapped to 400 "Email already exists".  The
handler performs no `find_one` existence check before the insert. -/
def register (store : List UserDoc) (hashFn : String → String)
    (inp : RegisterInput) (newId : ℕ) : Except HTTPError (List UserDoc × UserDoc) :=
  if validate_email inp.email = false then
    .error ⟨400, "Invalid email format"⟩
  else if 72 < utf8Len inp.password then
    .error ⟨400, "Password cannot be longer than 72 characters due to security limitations"⟩
  else if validate_password inp.password = false then
    .error ⟨400, "Password must be at least 8 characters with 1 uppercase letter, 1 number, and 1 special character"⟩
  else if validate_mobile inp.mobile = false then
    .error ⟨400, "Mobile number must be 10 digits"⟩
  else if (["job_seeker", "employer", "admin"].contains inp.role) = false then
    .error ⟨400, "Role must be job_seeker, employer, or admin"⟩
  else if store.any (fun u => u.email = inp.email) then
    .error ⟨400, "Email already exists"⟩
  else
    let u : UserDoc :=
      ⟨newId, inp.email, inp.full_name, inp.role, hashFn inp.password, true, false⟩
    .ok (store ++ [u], u)

/-- Lines 135-224: the `login` handler.  The password is truncated to 72
characters, then rejected if still over 72 bytes; a missing user, a
failed password check and a deactivated account all yield 401 (the
first two with the deliberately generic "Invalid credentials"). -/
def login (store : List UserDoc) (verify : String → String → Bool)
    (email password : String) : Except HTTPError UserDoc :=
  let pw := if 72 < password.length then (password.take 72) else password
  if 72 < utf8Len pw then
    .error ⟨400, "Password cannot be longer than 72 characters due to security limitations"⟩
  else if email = "" ∨ pw = "" then
    .error ⟨400, "Email and password are required"⟩
  else
    match store.find? (fun u => u.email = email) with
    | none => .error ⟨401, "Invalid credentials"⟩
    | some u =>
      if verify pw u.hashed_password = false then
        .error ⟨401, "Invalid credentials"⟩
      else if u.is_active = false then
        .error ⟨401, "Account is deactivated"⟩
      else .ok u

/-! ### Token verification (`app/utils/auth.py`, lines 79-118)

`jwt.decode` (signature check and payload parse) is abstracted: the
model starts from the decoded payload, exactly the state of the code
after line 81.  Every failure raised inside is surfaced by the callers
as a 401, which is what the model returns. -/

structure TokenPayload where
  sub : Option String
  role : Option String
  exp : Option ℤ
deriving DecidableEq

structure Identity where
  id : ℕ
  email : String
  role : String
deriving DecidableEq

/-- Lines 82-112 of `get_current_user`: require a `sub` claim, take the
role from the token with default `job_seeker` (line 87), reject an
expired timestamp, look the user up by email only to obtain the stored
id, and return the identity.  The stored record's `role` and
`is_active` fields are never consulted. -/
def get_current_user (store : List UserDoc) (payload : TokenPayload)
    (now : ℤ) : Except HTTPError Identity :=
  match payload.sub with
  | none => .error ⟨401, "Could not validate credentials"⟩
  | some email =>
    let role := payload.role.getD "job_seeker"
    if payload.exp.getD 0 < now then .error ⟨401, "Could not validate credentials"⟩
    else
      match store.find? (fun u => u.email = email) with
      | none => .error ⟨401, "Could not validate credentials"⟩
      | some u => .ok ⟨u.id, u.email, role⟩

/-! ### Jobs and the update handler (`app/routers/job.py`)

`posted_date`/`updated_at` timestamps are `ℤ` surrogates.  Jobs created
through `create_job` carry no `posted_at` field; some seed scripts
write one, so it is modelled as `Option ℤ`.  The float field
`company_rating` is modelled as `Option ℚ` (no claim depends on it). -/

structure JobDoc where
  id : ℕ
  title : String
  description : String
  company : String
  salary_min : Option ℤ
  salary_max : Option ℤ
  location : String
  skills : List String
  experience_required : Option String
  work_mode : Option String
  company_logo_url : Option String
  company_rating : Option ℚ
  reviews_count : Option ℤ
  created_by : ℕ
  posted_date : ℤ
  posted_at : Option ℤ
  is_active : Bool
  application_count : ℤ
  view_count : ℤ
  updated_at : ℤ
deriving DecidableEq

/-- `JobUpdate.model_dump(exclude_unset=True)`: the outer `Option` is
"was the field provided in the request"; for fields that are
`Optional` in `JobBase` the inner `Option` is "was it null". -/
structure JobUpdatePayload where
  title : Option String
  description : Option String
  company : Option String
  salary_min : Option (Option ℤ)
  salary_max : Option (Option ℤ)
  location : Option String
  skills : Option (List String)
  experience_required : Option (Option String)
  work_mode : Option (Option String)
  company_logo_url : Option (Option String)
  company_rating : Option (Option ℚ)
  reviews_count : Option (Option ℤ)
deriving DecidableEq

/-- The empty payload (no field submitted). -/
def emptyJobUpdate : JobUpdatePayload :=
  ⟨none, none, none, none, none, none, none, none, none, none, none, none⟩

/-- The `$set` of lines 369-377: each submitted field overwrites the
stored one, unsubmitted fields are untouched, and `updated_at` is
always set to the current time (line 371). -/
def applyJobUpdate (j : JobDoc) (u : JobUpdatePayload) (now : ℤ) : JobDoc :=
  { j with
    title := u.title.getD j.title
    description := u.description.getD j.description
    company := u.company.getD j.company
    salary_min := u.salary_min.getD j.salary_min
    salary_max := u.salary_max.getD j.salary_max
    location := u.location.getD j.location
    skills := u.skills.getD j.skills
    experience_required := u.experience_required.getD j.experience_required
    work_mode := u.work_mode.getD j.work_mode
    company_logo_url := u.company_logo_url.getD j.company_logo_url
    company_rating := u.company_rating.getD j.company_rating
    reviews_count := u.reviews_count.getD j.reviews_count
    updated_at := now }

/-- The body of the `try:` block of `update_job` (lines 353-405): 404
when the job does not exist, 403 when the caller is neither the owner
nor an admin, 400 when the `$set` modifies nothing
(`modified_count == 0`), otherwise the updated document is written and
returned. -/
def update_job_inner (jobs : List JobDoc) (user : Identity) (jobId : ℕ)
    (u : JobUpdatePayload) (now : ℤ) : Except HTTPError (List JobDoc × JobDoc) :=
  match jobs.find? (fun j => j.id = jobId) with
  | none => .error ⟨404, "Job not found"⟩
  | some j =>
    if j.created_by ≠ user.id ∧ user.role ≠ "admin" then
      .error ⟨403, "Not authorized to update this job"⟩
    else
      let j2 := applyJobUpdate j u now
      if j2 = j then .error ⟨400, "No changes made to job"⟩
      else .ok (jobs.map (fun x => if x.id = jobId then j2 else x), j2)

/-- Lines 342-410: the whole `update_job` body runs inside
`try: ... except Exception:` with no `except HTTPException: raise`
before it (contrast `create_application`, which has one).  Since
`HTTPException` subclasses `Exception`, every error raised inside —
including the 404 and the 403 — is caught at line 406 and replaced by
400 "Invalid job ID". -/
def update_job (jobs : List JobDoc) (user : Identity) (jobId : ℕ)
    (u : JobUpdatePayload) (now : ℤ) : Except HTTPError (List JobDoc × JobDoc) :=
  match update_job_inner jobs user jobId u now with
  | .ok r => .ok r
  | .error _ => .error ⟨400, "Invalid job ID"⟩

/-! ### Applications (`app/routers/applications.py`) and the index
layout (`app/database/indexes.py`) -/

structure AppDoc where
  user_id : ℕ
  job_id : ℕ
  status : String
  cover_letter : Option String
  resume_url : Option String
deriving DecidableEq

/-- `ApplicationCreate`: `status` defaults to `applied` in the pydantic
model, so a plain submission arrives here with `status = "applied"`. -/
structure ApplicationCreateInput where
  job_id : ℕ
  status : String
  cover_letter : Option String
  resume_url : Option String
deriving DecidableEq

/-- Lines 15-126: `create_application`.  After the job and user lookups,
the handler itself runs `find_one` on `(user_id, job_id)` and rejects a
duplicate with 400 before inserting — a check-then-insert in
request-handling code; the insert is not guarded by any unique index
(see `create_indexes` below). -/
def create_application (apps : List AppDoc) (jobs : List JobDoc)
    (users : List UserDoc) (userId : ℕ) (inp : ApplicationCreateInput) :
    Except HTTPError (List AppDoc × AppDoc) :=
  if (jobs.any (fun j => j.id = inp.job_id)) = false then
    .error ⟨404, "Job not found"⟩
  else if (users.any (fun u => u.id = userId)) = false then
    .error ⟨404, "User not found"⟩
  else if apps.any (fun a => a.user_id = userId ∧ a.job_id = inp.job_id) then
    .error ⟨400, "Application already submitted for this job"⟩
  else
    let doc : AppDoc := ⟨userId, inp.job_id, inp.status, inp.cover_letter, inp.resume_url⟩
    .ok (apps ++ [doc], doc)

structure IndexSpec where
  collection : String
  keys : List String
  unique : Bool
deriving DecidableEq

/-- The full index layout created by `create_indexes` in
`app/database/indexes.py` (text indexes are listed by their key pair;
`unique=True` appears exactly where the source passes it). -/
def create_indexes : List IndexSpec :=
  [⟨"users", ["email"], true⟩,
   ⟨"users", ["role"], false⟩,
   ⟨"users", ["is_active"], false⟩,
   ⟨"users", ["created_at"], false⟩,
   ⟨"jobs", ["title"], false⟩,
   ⟨"jobs", ["company"], false⟩,
   ⟨"jobs", ["location"], false⟩,
   ⟨"jobs", ["work_mode"], false⟩,
   ⟨"jobs", ["created_by"], false⟩,
   ⟨"jobs", ["posted_date"], false⟩,
   ⟨"jobs", ["is_active"], false⟩,
   ⟨"jobs", ["salary_min"], false⟩,
   ⟨"jobs", ["salary_max"], false⟩,
   ⟨"jobs", ["title", "description"], false⟩,
   ⟨"jobs", ["location", "company"], false⟩,
   ⟨"applications", ["user_id"], false⟩,
   ⟨"applications", ["job_id"], false⟩,
   ⟨"applications", ["user_id", "job_id"], false⟩,
   ⟨"applications", ["status"], false⟩,
   ⟨"applications", ["applied_date"], false⟩,
   ⟨"resumes", ["user_id"], false⟩,
   ⟨"resumes", ["uploaded_at"], false⟩,
   ⟨"resumes", ["user_id", "uploaded_at"], false⟩,
   ⟨"resumes", ["file_name"], false⟩,
   ⟨"companies", ["name"], true⟩,
   ⟨"notifications", ["user_id"], false⟩,
   ⟨"notifications", ["created_at"], false⟩,
   ⟨"reviews", ["company_id"], false⟩,
   ⟨"reviews", ["user_id"], false⟩,
   ⟨"reviews", ["created_at"], false⟩,
   ⟨"job_seeker_profiles", ["user_id"], true⟩,
   ⟨"recruiter_profiles", ["user_id"], true⟩,
   ⟨"saved_jobs", ["user_id"], false⟩,
   ⟨"saved_jobs", ["job_id"], false⟩,
   ⟨"company_verifications", ["company_id"], true⟩,
   ⟨"company_verifications", ["user_id"], false⟩,
   ⟨"company_verifications", ["status"], false⟩,
   ⟨"job_alerts", ["user_id"], false⟩,
   ⟨"job_alerts", ["active"], false⟩]

/-- The storage-layer enforcement the claim asserts: a unique index on
`applications (user_id, job_id)`. -/
def applicationsPairUniqueIndex : Prop :=
  ∃ idx ∈ create_indexes,
    idx.collection = "applications" ∧ idx.keys = ["user_id", "job_id"] ∧
      idx.unique = true

/-! ### The alert matcher and the general job search

`get_recent_jobs_for_alerts` (`app/routers/job_alert.py`, lines
150-233) builds a MongoDB filter from an alert's loosely-typed
`search_params`; `search_jobs` (`app/routers/job.py`, lines 137-229)
builds the general search filter.  Both are embedded as executable
match predicates on a single job document, with MongoDB semantics:

* `$regex` with option `i` on stored free text is modelled as
  case-insensitive substring containment (`ciInfix`);
* `$in` on an array field matches when any array element is listed;
* `$all` matches when every listed value is an array element;
* a comparison or equality filter on a field the document lacks does
  not match (`Option` fields);
* a falsy parameter (absent key, empty string, empty list, zero) omits
  its clause, per each `if search_params.get(...)` guard. -/

def ciInfix (pat s : String) : Bool :=
  decide ((pat.data.map Char.toLower) <:+: (s.data.map Char.toLower))

/-- The `search_params` document stored on an alert. -/
structure AlertSearchParams where
  search : Option String
  location : Option String
  experience_min : Option String
  salary_min : Option ℤ
  job_type : Option String
  work_mode : Option String
  skills : Option (List String)
deriving DecidableEq

/-- An alert with only a `skills` list. -/
def skillsOnlyParams (l : List String) : AlertSearchParams :=
  ⟨none, none, none, none, none, none, some l⟩

/-- Lines 202-207: jobs posted at or after `last_triggered`, or within
the last 7 days when the alert never fired. -/
def alertThreshold (lastTriggered : Option ℤ) (now : ℤ) : ℤ :=
  match lastTriggered with
  | some t => t
  | none => now - 7 * 86400

/-- Lines 168-210: the filter built for one alert, applied to one job.
The posted-time window tests the `posted_at` field, which jobs created
through `create_job` do not carry (they store `posted_date`).  The
`job_type` equality clause likewise targets a field job documents do
not have, so it matches nothing when active. -/
def jobMatchesAlertQuery (p : AlertSearchParams) (threshold : ℤ)
    (j : JobDoc) : Bool :=
  j.is_active &&
  (match p.search with
   | some s => if s = "" then true
       else ciInfix s j.title || ciInfix s j.description || j.skills.contains s
   | none => true) &&
  (match p.location with
   | some l => if l = "" then true else ciInfix l j.location
   | none => true) &&
  (match p.experience_min with
   | some e => if e = "" then true
       else match j.experience_required with
            | some er => ciInfix e er
            | none => false
   | none => true) &&
  (match p.salary_min with
   | some m => if m = 0 then true
       else match j.salary_min with
            | some v => m ≤ v
            | none => false
   | none => true) &&
  (match p.job_type with
   | some t => if t = "" then true else false
   | none => true) &&
  (match p.work_mode with
   | some w => if w = "" then true else j.work_mode = some w
   | none => true) &&
  (match p.skills with
   | some l => if l = [] then true else l.all (fun s => j.skills.contains s)
   | none => true) &&
  (match j.posted_at with
   | some t => threshold ≤ t
   | none => false)

/-- Lines 137-229: the filter built by the `/api/jobs/search` endpoint,
applied to one job.  `skillsList` is the comma-split, stripped form of
the `skills` query parameter computed at line 189 (empty when the
parameter was absent).  When both `job_type` and `work_mode` are given,
the `work_mode` assignment overwrites the `job_type` one (lines
169-173).  The numeric `experience_required` range clause compares
numbers against a string-typed (or absent) field, which matches no job
document under BSON type bracketing. -/
def jobMatchesSearchQuery (search location job_type work_mode : String)
    (salary_min experience_min experience_max : ℤ)
    (skillsList : List String) (j : JobDoc) : Bool :=
  j.is_active &&
  (if search = "" then true
   else ciInfix search j.title || ciInfix search j.description ||
     j.skills.contains search) &&
  (if location = "" then true else ciInfix location j.location) &&
  (if work_mode ≠ "" then j.work_mode = some work_mode
   else if job_type ≠ "" then j.work_mode = some job_type
   else true) &&
  (if salary_min ≤ 0 then true
   else match j.salary_min with
        | some v => salary_min ≤ v
        | none => false) &&
  (if 0 < experience_min ∨ experience_max < 100 then false else true) &&
  (if skillsList = [] then true
   else skillsList.any (fun s => j.skills.contains s))

/-! ### Concrete fixtures used by witnesses and counterexamples -/

def employerOne : UserDoc :=
  ⟨1, "owner@portal.test", "Own Er", "employer", "h1", true, false⟩

def employerTwoIdentity : Identity := ⟨2, "other@portal.test", "employer"⟩

def employerOneIdentity : Identity := ⟨1, "owner@portal.test", "employer"⟩

def seekerUser : UserDoc :=
  ⟨3, "seeker@portal.test", "See Ker", "job_seeker", "h3", true, false⟩

def inactiveUser : UserDoc :=
  ⟨4, "inactive@portal.test", "In Active", "job_seeker", "h4", false, false⟩

/-- A job owned by `employerOne` (`created_by = 1`). -/
def ownedJob : JobDoc :=
  ⟨10, "Backend Dev", "Build APIs", "Acme", none, none, "Pune", ["Go", "SQL"],
    none, none, none, none, none, 1, 0, some 1000, true, 0, 0, 0⟩

/-- A partial update sending only the title. -/
def titleOnlyUpdate : JobUpdatePayload :=
  ⟨some "Senior Backend Dev", none, none, none, none, none, none, none, none,
    none, none, none⟩

def applyInput : ApplicationCreateInput := ⟨10, "applied", none, none⟩

/-- A token whose role claim (employer) disagrees with the stored role
of `seekerUser` (job_seeker). -/
def staleRolePayload : TokenPayload :=
  ⟨some "seeker@portal.test", some "employer", some 9999⟩

/-- A valid, unexpired token for the deactivated `inactiveUser`. -/
def inactiveUserPayload : TokenPayload :=
  ⟨some "inactive@portal.test", some "job_seeker", some 9999⟩

/-- A fully valid registration input whose email collides with
`employerOne`. -/
def regConflictInput : RegisterInput :=
  ⟨"owner@portal.test", "New Name", "employer", "Passw0rd!", "1234567890"⟩

/-! ## Theorems

First the lemma library for the binary64 rounding model, then the
scorer lemmas, then one theorem (plus witness or counterexample) per
claim. -/

theorem floor_le_rhe (s : ℚ) : ⌊s⌋ ≤ rhe s := by
  unfold rhe; split_ifs <;> omega

theorem rhe_le_floor_add_one (s : ℚ) : rhe s ≤ ⌊s⌋ + 1 := by
  unfold rhe; split_ifs <;> omega

theorem abs_rhe_sub_le (s : ℚ) : |(rhe s : ℚ) - s| ≤ 1/2 := by
  have h1 : (⌊s⌋ : ℚ) ≤ s := Int.floor_le s
  have h2 : s < ⌊s⌋ + 1 := Int.lt_floor_add_one s
  unfold rhe
  split_ifs with ha hb hc <;> rw [abs_le] <;> constructor <;> push_cast <;> linarith

theorem rhe_mono {s t : ℚ} (h : s ≤ t) : rhe s ≤ rhe t := by
  have hf : ⌊s⌋ ≤ ⌊t⌋ := Int.floor_le_floor h
  rcases hf.eq_or_lt with he | hlt
  · unfold rhe
    rw [← he]
    have h1 : (⌊s⌋ : ℚ) ≤ s := Int.floor_le s
    have h2 : (⌊s⌋ : ℚ) ≤ t := by
      have := Int.floor_le t; rw [← he] at this; exact this
    split_ifs <;> first | omega | linarith
  · calc rhe s ≤ ⌊s⌋ + 1 := rhe_le_floor_add_one s
    _ ≤ ⌊t⌋ := by omega
    _ ≤ rhe t := floor_le_rhe t

theorem roundB64_zero : roundB64 0 = 0 := by
  unfold roundB64; norm_num

theorem roundB64_pos_eq {x : ℚ} (hx : 0 < x) :
    roundB64 x = (rhe (x * 2 ^ (52 - Int.log 2 x)) : ℚ) * 2 ^ (Int.log 2 x - 52) := by
  unfold roundB64; rw [if_pos hx]

/-- Bracketing of the scaled mantissa: `2^52 ≤ x·2^(52-e) < 2^53`. -/
theorem scaled_bounds {x : ℚ} (hx : 0 < x) :
    (2:ℚ)^(52:ℤ) ≤ x * 2 ^ (52 - Int.log 2 x) ∧
      x * 2 ^ (52 - Int.log 2 x) < (2:ℚ)^(53:ℤ) := by
  set e := Int.log 2 x with he
  have hlo : (2:ℚ)^e ≤ x := by
    have := Int.zpow_log_le_self (b := 2) (r := x) (by norm_num) hx
    push_cast at this; exact this
  have hhi : x < (2:ℚ)^(e+1) := by
    have := Int.lt_zpow_succ_log_self (b := 2) (by norm_num) x
    push_cast at this; exact this
  have hp : (0:ℚ) < 2 ^ (52 - e) := zpow_pos (by norm_num) _
  constructor
  · calc (2:ℚ)^(52:ℤ) = 2^e * 2^(52 - e) := by
          rw [← zpow_add₀ (by norm_num : (2:ℚ) ≠ 0)]; ring_nf
    _ ≤ x * 2^(52 - e) := by
          exact mul_le_mul_of_nonneg_right hlo hp.le
  · calc x * 2^(52 - e) < (2:ℚ)^(e+1) * 2^(52 - e) := by
          exact mul_lt_mul_of_pos_right hhi hp
    _ = (2:ℚ)^(53:ℤ) := by
          rw [← zpow_add₀ (by norm_num : (2:ℚ) ≠ 0)]; ring_nf

theorem roundB64_abs_err {x : ℚ} (hx : 0 < x) :
    |roundB64 x - x| ≤ x / 2^53 := by
  set e := Int.log 2 x with he
  set s := x * 2 ^ (52 - e) with hs
  have hinv : (2:ℚ) ^ (52 - e) * 2 ^ (e - 52) = 1 := by
    rw [← zpow_add₀ (by norm_num : (2:ℚ) ≠ 0)]; ring_nf
  have hxid : s * 2 ^ (e - 52) = x := by
    rw [hs, mul_assoc, hinv, mul_one]
  have hkey : roundB64 x - x = ((rhe s : ℚ) - s) * 2 ^ (e - 52) := by
    rw [roundB64_pos_eq hx, ← he, ← hs, sub_mul, hxid]
  have hp : (0:ℚ) < 2 ^ (e - 52) := zpow_pos (by norm_num) _
  rw [hkey, abs_mul, abs_of_pos hp]
  have h1 : |(rhe s : ℚ) - s| * 2 ^ (e - 52) ≤ (1/2) * 2 ^ (e - 52) :=
    mul_le_mul_of_nonneg_right (abs_rhe_sub_le s) hp.le
  refine h1.trans ?_
  have hlo : (2:ℚ)^e ≤ x := by
    have := Int.zpow_log_le_self (b := 2) (r := x) (by norm_num) hx
    push_cast at this; exact this
  have hstep : (1/2) * (2:ℚ) ^ (e - 52) = 2^e / 2^53 := by
    have hsplit : (2:ℚ)^e = 2^(e - 52) * 2^(52:ℤ) := by
      rw [← zpow_add₀ (by norm_num : (2:ℚ) ≠ 0)]; congr 1; ring
    rw [hsplit, show (2:ℚ)^(52:ℤ) = 4503599627370496 by norm_num,
      show (2:ℚ)^53 = 9007199254740992 by norm_num, mul_div_assoc]
    norm_num
    ring
  rw [hstep]
  exact (div_le_div_iff_of_pos_right (by positivity)).mpr hlo

theorem roundB64_nonneg {x : ℚ} (hx : 0 ≤ x) : 0 ≤ roundB64 x := by
  rcases hx.eq_or_lt with h | h
  · rw [← h, roundB64_zero]
  · rw [roundB64_pos_eq h]
    have hb := (scaled_bounds h).1
    have h1 : (0:ℚ) ≤ (rhe (x * 2 ^ (52 - Int.log 2 x)) : ℚ) := by
      have : (0:ℤ) ≤ ⌊x * 2 ^ (52 - Int.log 2 x)⌋ := by
        apply Int.floor_nonneg.mpr
        calc (0:ℚ) ≤ (2:ℚ)^(52:ℤ) := by positivity
        _ ≤ _ := hb
      have := this.trans (floor_le_rhe _)
      exact_mod_cast this
    exact mul_nonneg h1 (zpow_pos (by norm_num : (0:ℚ) < 2) _).le

theorem roundB64_le {x : ℚ} (hx : 0 ≤ x) : roundB64 x ≤ x + x / 2^53 := by
  rcases hx.eq_or_lt with h | h
  · rw [← h, roundB64_zero]; norm_num
  · have := roundB64_abs_err h
    rw [abs_le] at this
    linarith [this.2]

theorem zpow_le_roundB64 {x : ℚ} (hx : 0 < x) :
    (2:ℚ)^(Int.log 2 x) ≤ roundB64 x := by
  set e := Int.log 2 x with he
  set s := x * 2 ^ (52 - e) with hs
  have hb := (scaled_bounds hx).1
  rw [roundB64_pos_eq hx, ← he, ← hs]
  have h1 : ((2:ℚ)^(52:ℤ) : ℚ) ≤ (rhe s : ℚ) := by
    have hfl : (2^52 : ℤ) ≤ ⌊s⌋ := by
      apply Int.le_floor.mpr
      calc ((2^52 : ℤ) : ℚ) = (2:ℚ)^(52:ℤ) := by push_cast; norm_num
      _ ≤ s := hb
    have := hfl.trans (floor_le_rhe s)
    calc ((2:ℚ)^(52:ℤ) : ℚ) = ((2^52 : ℤ) : ℚ) := by push_cast; norm_num
    _ ≤ (rhe s : ℚ) := by exact_mod_cast this
  calc (2:ℚ)^e = 2^(52:ℤ) * 2^(e - 52) := by
        rw [← zpow_add₀ (by norm_num : (2:ℚ) ≠ 0)]; ring_nf
  _ ≤ (rhe s : ℚ) * 2^(e - 52) :=
        mul_le_mul_of_nonneg_right h1 (zpow_pos (by norm_num : (0:ℚ) < 2) _).le

theorem roundB64_le_zpow {x : ℚ} (hx : 0 < x) :
    roundB64 x ≤ (2:ℚ)^(Int.log 2 x + 1) := by
  set e := Int.log 2 x with he
  set s := x * 2 ^ (52 - e) with hs
  have hb := (scaled_bounds hx).2
  rw [roundB64_pos_eq hx, ← he, ← hs]
  have h1 : (rhe s : ℚ) ≤ (2:ℚ)^(53:ℤ) := by
    have hfl : ⌊s⌋ < (2^53 : ℤ) := by
      apply Int.floor_lt.mpr
      calc s < (2:ℚ)^(53:ℤ) := hb
      _ = ((2^53 : ℤ) : ℚ) := by push_cast; norm_num
    have h2 : rhe s ≤ (2^53 : ℤ) := le_trans (rhe_le_floor_add_one s) (by omega)
    calc (rhe s : ℚ) ≤ ((2^53 : ℤ) : ℚ) := by exact_mod_cast h2
    _ = (2:ℚ)^(53:ℤ) := by push_cast; norm_num
  calc (rhe s : ℚ) * 2^(e - 52) ≤ (2:ℚ)^(53:ℤ) * 2^(e - 52) :=
        mul_le_mul_of_nonneg_right h1 (zpow_pos (by norm_num : (0:ℚ) < 2) _).le
  _ = (2:ℚ)^(e + 1) := by
        rw [← zpow_add₀ (by norm_num : (2:ℚ) ≠ 0)]; ring_nf

theorem roundB64_mono {x y : ℚ} (hx : 0 ≤ x) (hxy : x ≤ y) :
    roundB64 x ≤ roundB64 y := by
  rcases hx.eq_or_lt with h | hxp
  · rw [← h, roundB64_zero]
    exact roundB64_nonneg (le_trans hx hxy)
  · have hyp : 0 < y := lt_of_lt_of_le hxp hxy
    have hle : Int.log 2 x ≤ Int.log 2 y := Int.log_mono_right hxp hxy
    rcases hle.eq_or_lt with he | hlt
    · rw [roundB64_pos_eq hxp, roundB64_pos_eq hyp, ← he]
      have hp : (0:ℚ) < 2 ^ (52 - Int.log 2 x) := zpow_pos (by norm_num) _
      have hs : x * 2 ^ (52 - Int.log 2 x) ≤ y * 2 ^ (52 - Int.log 2 x) :=
        mul_le_mul_of_nonneg_right hxy hp.le
      have := rhe_mono hs
      exact mul_le_mul_of_nonneg_right (by exact_mod_cast this)
        (zpow_pos (by norm_num : (0:ℚ) < 2) _).le
    · calc roundB64 x ≤ (2:ℚ)^(Int.log 2 x + 1) := roundB64_le_zpow hxp
      _ ≤ (2:ℚ)^(Int.log 2 y) := by
            apply zpow_le_zpow_right₀ (by norm_num : (1:ℚ) ≤ 2); omega
      _ ≤ roundB64 y := zpow_le_roundB64 hyp


/-! ### Evaluation helpers for the rounding model -/

theorem int_log2_eq {x : ℚ} {e : ℤ} (hx : 0 < x) (h1 : (2:ℚ)^e ≤ x)
    (h2 : x < (2:ℚ)^(e+1)) : Int.log 2 x = e := by
  have hle : e ≤ Int.log 2 x := by
    apply (Int.zpow_le_iff_le_log (by norm_num) hx).mp
    push_cast
    exact h1
  have hlt : Int.log 2 x < e + 1 := by
    apply (Int.lt_zpow_iff_log_lt (by norm_num) hx).mp
    push_cast
    exact h2
  omega

theorem rhe_eval_lt {s : ℚ} {n : ℤ} (hfl : ⌊s⌋ = n) (hfr : s - n < 1/2) :
    rhe s = n := by
  unfold rhe
  rw [hfl]
  exact if_pos hfr

theorem roundB64_eval {x v : ℚ} {e n : ℤ} (hx : 0 < x)
    (h1 : (2:ℚ)^e ≤ x) (h2 : x < (2:ℚ)^(e+1))
    (hn : rhe (x * 2 ^ (52 - e)) = n)
    (hv : (n : ℚ) * 2 ^ (e - 52) = v) : roundB64 x = v := by
  rw [roundB64_pos_eq hx, int_log2_eq hx h1 h2, hn, hv]

/-! ### Bounds and monotonicity of the score pipeline -/

theorem b64ScoreVal_nonneg {e t : ℚ} (he : 0 ≤ e) (ht : 0 < t) :
    0 ≤ b64ScoreVal e t := by
  unfold b64ScoreVal
  have h0 : 0 ≤ e / t := div_nonneg he ht.le
  have h1 : 0 ≤ roundB64 (e / t) := roundB64_nonneg h0
  have h2 : 0 ≤ roundB64 (e / t) * 100 := mul_nonneg h1 (by norm_num)
  exact Int.floor_nonneg.mpr (roundB64_nonneg h2)

theorem b64ScoreVal_le_100 {e t : ℚ} (he : 0 ≤ e) (het : e ≤ t) (ht : 0 < t) :
    b64ScoreVal e t ≤ 100 := by
  unfold b64ScoreVal
  have hq0 : 0 ≤ e / t := div_nonneg he ht.le
  have hq1 : e / t ≤ 1 := (div_le_one ht).mpr het
  have h1 : roundB64 (e / t) ≤ e / t + (e / t) / 2^53 := roundB64_le hq0
  have h1b : roundB64 (e / t) ≤ 1 + 1 / 2^53 := by
    have hd : (e / t) / 2^53 ≤ 1 / 2^53 := by gcongr
    linarith
  have hm0 : 0 ≤ roundB64 (e / t) * 100 :=
    mul_nonneg (roundB64_nonneg hq0) (by norm_num)
  have hm : roundB64 (e / t) * 100 ≤ (1 + 1 / 2^53) * 100 :=
    mul_le_mul_of_nonneg_right h1b (by norm_num)
  have h2 : roundB64 (roundB64 (e / t) * 100) ≤
      roundB64 (e / t) * 100 + (roundB64 (e / t) * 100) / 2^53 := roundB64_le hm0
  have h3 : (roundB64 (e / t) * 100) / 2^53 ≤ ((1 + 1 / 2^53) * 100) / 2^53 := by
    gcongr
  have h4 : roundB64 (roundB64 (e / t) * 100) < 101 := by
    have hnum : (1 + 1 / 2^53) * 100 + ((1 + 1 / 2^53) * 100) / 2^53 < (101:ℚ) := by
      norm_num
    linarith
  have h5 : ⌊roundB64 (roundB64 (e / t) * 100)⌋ < 101 :=
    Int.floor_lt.mpr (by push_cast; linarith)
  omega

theorem b64ScoreVal_mono {e1 e2 t : ℚ} (he : 0 ≤ e1) (h12 : e1 ≤ e2)
    (ht : 0 < t) : b64ScoreVal e1 t ≤ b64ScoreVal e2 t := by
  unfold b64ScoreVal
  have hq : e1 / t ≤ e2 / t := by gcongr
  have hq0 : 0 ≤ e1 / t := div_nonneg he ht.le
  have h1 := roundB64_mono hq0 hq
  have h10 : 0 ≤ roundB64 (e1 / t) := roundB64_nonneg hq0
  have h2 : roundB64 (e1 / t) * 100 ≤ roundB64 (e2 / t) * 100 :=
    mul_le_mul_of_nonneg_right h1 (by norm_num)
  have h20 : 0 ≤ roundB64 (e1 / t) * 100 := mul_nonneg h10 (by norm_num)
  exact Int.floor_le_floor (roundB64_mono h20 h2)

/-! ### Structural bounds of the scorer -/

theorem requiredEarned_le (p : ProfileDoc) : requiredEarned p ≤ 4 := by
  unfold requiredEarned
  split_ifs <;> omega

theorem optionalEarned_le (p : ProfileDoc) : optionalEarned p ≤ 5 := by
  unfold optionalEarned
  split_ifs <;> omega

theorem expEarned_le_expTotal (p : ProfileDoc) : expEarned p ≤ expTotal p := by
  unfold expEarned expTotal
  by_cases h : p.experience.isEmpty
  · have : p.experience = [] := by simpa [List.isEmpty_iff] using h
    simp [this, h]
  · rw [if_neg h]
    exact Nat.mul_le_mul_left 2 (List.length_filter_le _ _)

theorem eduEarned_le_eduTotal (p : ProfileDoc) : eduEarned p ≤ eduTotal p := by
  unfold eduEarned eduTotal
  by_cases h : p.education.isEmpty
  · have : p.education = [] := by simpa [List.isEmpty_iff] using h
    simp [this, h]
  · rw [if_neg h]
    exact Nat.mul_le_mul_left 2 (List.length_filter_le _ _)

theorem projEarned_le_projTotal (p : ProfileDoc) : projEarned p ≤ projTotal p := by
  unfold projEarned projTotal
  by_cases h : p.projects.isEmpty
  · have : p.projects = [] := by simpa [List.isEmpty_iff] using h
    simp [this, h]
  · rw [if_neg h]
    exact Nat.mul_le_mul_left 2 (List.length_filter_le _ _)

theorem skillsEarned_nonneg (p : ProfileDoc) : 0 ≤ skillsEarned p := by
  unfold skillsEarned
  split_ifs
  · exact le_refl 0
  · exact le_min (by positivity) (by norm_num)

theorem skillsEarned_le_skillsTotal (p : ProfileDoc) :
    skillsEarned p ≤ (skillsTotal p : ℚ) := by
  unfold skillsEarned skillsTotal
  split_ifs
  · norm_num
  · push_cast
    exact min_le_right _ _

theorem earnedPoints_nonneg (p : ProfileDoc) : 0 ≤ earnedPoints p := by
  unfold earnedPoints
  have h := skillsEarned_nonneg p
  have h1 : (0:ℚ) ≤ (requiredEarned p : ℚ) := by positivity
  have h2 : (0:ℚ) ≤ (optionalEarned p : ℚ) := by positivity
  have h3 : (0:ℚ) ≤ (expEarned p : ℚ) := by positivity
  have h4 : (0:ℚ) ≤ (eduEarned p : ℚ) := by positivity
  have h5 : (0:ℚ) ≤ (projEarned p : ℚ) := by positivity
  linarith

theorem earnedPoints_le_totalPoints (p : ProfileDoc) :
    earnedPoints p ≤ (totalPoints p : ℚ) := by
  unfold earnedPoints totalPoints
  have h1 : (requiredEarned p : ℚ) ≤ 4 := by exact_mod_cast requiredEarned_le p
  have h2 : (optionalEarned p : ℚ) ≤ 5 := by exact_mod_cast optionalEarned_le p
  have h3 : (expEarned p : ℚ) ≤ (expTotal p : ℚ) := by
    exact_mod_cast expEarned_le_expTotal p
  have h4 : (eduEarned p : ℚ) ≤ (eduTotal p : ℚ) := by
    exact_mod_cast eduEarned_le_eduTotal p
  have h5 := skillsEarned_le_skillsTotal p
  have h6 : (projEarned p : ℚ) ≤ (projTotal p : ℚ) := by
    exact_mod_cast projEarned_le_projTotal p
  push_cast
  linarith

theorem totalPoints_ge_11 (p : ProfileDoc) : 11 ≤ totalPoints p := by
  unfold totalPoints
  have hp : 2 ≤ projTotal p := by
    unfold projTotal
    by_cases h : p.projects.isEmpty
    · simp [h]
    · rw [if_neg h]
      have : p.projects ≠ [] := by simpa [List.isEmpty_iff] using h
      have := List.length_pos.mpr this
      omega
  omega

theorem totalPoints_cast_pos (p : ProfileDoc) : (0:ℚ) < (totalPoints p : ℚ) := by
  have := totalPoints_ge_11 p
  exact_mod_cast Nat.lt_of_lt_of_le (by norm_num) this

/-- Neither the zero-denominator branch nor the clamp ever fires: the
score is the bare floored binary64 value. -/
theorem calculate_eq_unclamped (p : ProfileDoc) :
    calculate_profile_completion p =
      b64ScoreVal (earnedPoints p) (totalPoints p) := by
  unfold calculate_profile_completion
  have hne : totalPoints p ≠ 0 := by have := totalPoints_ge_11 p; omega
  rw [if_neg hne]
  exact min_eq_left (b64ScoreVal_le_100 (earnedPoints_nonneg p)
    (earnedPoints_le_totalPoints p) (totalPoints_cast_pos p))

/-! ### Concrete evaluations on the fixture profiles -/

theorem earnedPoints_floorGap : earnedPoints floorGapProfile = 29/2 := by
  have h1 : requiredEarned floorGapProfile = 4 := by decide
  have h2 : optionalEarned floorGapProfile = 5 := by decide
  have h3 : expEarned floorGapProfile = 0 := by decide
  have h4 : eduEarned floorGapProfile = 2 := by decide
  have h5 : projEarned floorGapProfile = 0 := by decide
  have h6 : skillsEarned floorGapProfile = 7/2 := by
    simp only [skillsEarned, floorGapProfile, List.isEmpty, List.length]
    norm_num [min_def]
  unfold earnedPoints
  rw [h1, h2, h3, h4, h5, h6]
  norm_num

theorem totalPoints_floorGap : totalPoints floorGapProfile = 25 := by decide

/-- The binary64 division `14.5 / 25`: the quotient `0.58` is not
representable; it rounds down to `5224175567749775 · 2^-53`. -/
theorem roundB64_gap_div :
    roundB64 ((29:ℚ)/50) = 5224175567749775/9007199254740992 := by
  apply roundB64_eval (e := -1) (n := 5224175567749775)
  · norm_num
  · norm_num
  · norm_num
  · apply rhe_eval_lt
    · norm_num
    · norm_num
  · norm_num

/-- The binary64 product of that quotient with 100:
`57.99999999999999289…`, again rounding down. -/
theorem roundB64_gap_mul :
    roundB64 ((5224175567749775:ℚ)/9007199254740992 * 100) =
      8162774324609023/140737488355328 := by
  apply roundB64_eval (e := 5) (n := 8162774324609023)
  · norm_num
  · norm_num
  · norm_num
  · apply rhe_eval_lt
    · norm_num
    · norm_num
  · norm_num

theorem b64ScoreVal_gap : b64ScoreVal (29/2) 25 = 57 := by
  unfold b64ScoreVal
  rw [show (29:ℚ)/2/25 = 29/50 by norm_num, roundB64_gap_div, roundB64_gap_mul]
  norm_num

theorem calculate_floorGap : calculate_profile_completion floorGapProfile = 57 := by
  rw [calculate_eq_unclamped, earnedPoints_floorGap, totalPoints_floorGap]
  exact_mod_cast b64ScoreVal_gap

theorem exactScore_floorGap : exactCompletionScore floorGapProfile = 58 := by
  unfold exactCompletionScore
  rw [totalPoints_floorGap, earnedPoints_floorGap]
  norm_num [min_def]

theorem calculate_empty : calculate_profile_completion emptyProfile = 0 := by
  rw [calculate_eq_unclamped]
  have hE : earnedPoints emptyProfile = 0 := by
    have h1 : requiredEarned emptyProfile = 0 := by decide
    have h2 : optionalEarned emptyProfile = 0 := by decide
    have h3 : expEarned emptyProfile = 0 := by decide
    have h4 : eduEarned emptyProfile = 0 := by decide
    have h5 : projEarned emptyProfile = 0 := by decide
    have h6 : skillsEarned emptyProfile = 0 := by
      simp [skillsEarned, emptyProfile, List.isEmpty]
    unfold earnedPoints
    rw [h1, h2, h3, h4, h5, h6]
    norm_num
  unfold b64ScoreVal
  rw [hE, zero_div, roundB64_zero, zero_mul, roundB64_zero]
  norm_num

/-! ### Filling one optional scalar field -/

theorem setOptField_points (p : ProfileDoc) (f : OptField) (v : String)
    (hblank : filled (getOptField p f) = false)
    (hfill : filled (some v) = true) :
    earnedPoints (setOptField p f v) = earnedPoints p + 1 ∧
      totalPoints (setOptField p f v) = totalPoints p := by
  cases f <;>
    simp only [getOptField] at hblank <;>
    refine ⟨?_, rfl⟩ <;>
    simp only [earnedPoints, requiredEarned, optionalEarned, expEarned, eduEarned,
      skillsEarned, projEarned, setOptField] <;>
    simp [hblank, hfill] <;>
    ring

/-- C5: filling in one previously-blank optional scalar field, with all
other content unchanged, never decreases the completion score (the
monotonicity survives the two binary64 roundings because rounding to
nearest is monotone). -/
theorem C5_score_monotone_optional_fill (p : ProfileDoc) (f : OptField)
    (v : String) (hblank : filled (getOptField p f) = false)
    (hfill : filled (some v) = true) :
    calculate_profile_completion p ≤
      calculate_profile_completion (setOptField p f v) := by
  obtain ⟨hE, hT⟩ := setOptField_points p f v hblank hfill
  rw [calculate_eq_unclamped, calculate_eq_unclamped, hE, hT]
  exact b64ScoreVal_mono (earnedPoints_nonneg p) (by linarith)
    (totalPoints_cast_pos p)

/-- Witness for C5 at a concrete profile and field. -/
theorem C5_score_monotone_optional_fill_witness :
    (filled (getOptField emptyProfile .phone) = false ∧
        filled (some "1") = true) ∧
      calculate_profile_completion emptyProfile ≤
        calculate_profile_completion (setOptField emptyProfile .phone "1") :=
  ⟨⟨by decide, by decide⟩,
    C5_score_monotone_optional_fill emptyProfile .phone "1" (by decide) (by decide)⟩

/-- C4 counterexample: on `floorGapProfile` (numerator 14.5,
denominator 25) the code returns 57 — `0.58` and `0.58·100` both round
down in binary64 — while `floor(100 × numerator/denominator)` clamped
to `[0, 100]` is 58, so the score does not equal the claimed exact
floor. -/
theorem C4_counterexample_floorGap :
    calculate_profile_completion floorGapProfile = 57 ∧
      exactCompletionScore floorGapProfile = 58 ∧
      calculate_profile_completion floorGapProfile ≠
        exactCompletionScore floorGapProfile := by
  refine ⟨calculate_floorGap, exactScore_floorGap, ?_⟩
  rw [calculate_floorGap, exactScore_floorGap]
  decide

/-- C4 (amended): for every profile the score lies in `[0, 100]` and an
empty profile scores exactly 0; the score is the truncated binary64
evaluation of `100 × numerator/denominator`, which can be one less
than the exact `floor(100 × numerator/denominator)` (it is on
`floorGapProfile`). -/
theorem C4_amended_score_bounds :
    (∀ p : ProfileDoc, 0 ≤ calculate_profile_completion p ∧
        calculate_profile_completion p ≤ 100) ∧
      calculate_profile_completion emptyProfile = 0 ∧
      calculate_profile_completion floorGapProfile =
        exactCompletionScore floorGapProfile - 1 := by
  refine ⟨fun p => ?_, calculate_empty, ?_⟩
  · rw [calculate_eq_unclamped]
    exact ⟨b64ScoreVal_nonneg (earnedPoints_nonneg p) (totalPoints_cast_pos p),
      b64ScoreVal_le_100 (earnedPoints_nonneg p) (earnedPoints_le_totalPoints p)
        (totalPoints_cast_pos p)⟩
  · rw [calculate_floorGap, exactScore_floorGap]
    decide

/-- C10 counterexample: a profile with one project and nothing else has
total points 9 + 2 = 11, refuting the claimed lower bound of 13 (the
absent-projects contribution of 4 is not added when projects exist). -/
theorem C10_counterexample_totalPoints :
    totalPoints oneProjectProfile = 11 ∧
      ¬ 13 ≤ totalPoints oneProjectProfile := by
  decide

/-- C10 (amended): earned points never exceed total points, total points
are at least 11 (so the denominator-zero branch is unreachable), and
the `min(…, 100)` clamp is a no-op: the score equals the unclamped
floored binary64 value, which already lies in `[0, 100]`. -/
theorem C10_amended_denominator_bounds :
    ∀ p : ProfileDoc, earnedPoints p ≤ (totalPoints p : ℚ) ∧
      11 ≤ totalPoints p ∧ totalPoints p ≠ 0 ∧
      calculate_profile_completion p =
        b64ScoreVal (earnedPoints p) (totalPoints p) :=
  fun p => ⟨earnedPoints_le_totalPoints p, totalPoints_ge_11 p,
    by have := totalPoints_ge_11 p; omega, calculate_eq_unclamped p⟩

/-! ### Applications: uniqueness of the (user, job) pair -/

/-- C1 counterexample: `create_indexes` (indexes.py line 68) creates
only a NON-unique compound index on `applications (user_id, job_id)`,
so the claimed atomic unique constraint at the storage layer does not
exist; uniqueness rests on the handler's check-then-insert alone. -/
theorem C1_counterexample_no_unique_index : ¬ applicationsPairUniqueIndex := by
  unfold applicationsPairUniqueIndex create_indexes
  decide

/-- C1 (amended): at-most-one application per (user, job) pair is
enforced by the handler's own find-then-insert (applications.py lines
68-79) over a non-unique compound index, not by a storage-layer unique
constraint: sequentially, the first submission succeeds with status
`applied` and the second fails with the 400 conflict error. -/
theorem C1_amended_check_then_insert
    (apps : List AppDoc) (jobs : List JobDoc) (users : List UserDoc)
    (uid : ℕ) (inp : ApplicationCreateInput)
    (hjob : jobs.any (fun j => j.id = inp.job_id) = true)
    (huser : users.any (fun u => u.id = uid) = true)
    (hnodup : apps.any (fun a => a.user_id = uid ∧ a.job_id = inp.job_id) = false)
    (hstatus : inp.status = "applied") :
    ∃ doc : AppDoc,
      create_application apps jobs users uid inp = .ok (apps ++ [doc], doc) ∧
        doc.status = "applied" ∧ doc.user_id = uid ∧ doc.job_id = inp.job_id ∧
        create_application (apps ++ [doc]) jobs users uid inp =
          .error ⟨400, "Application already submitted for this job"⟩ ∧
        ¬ applicationsPairUniqueIndex := by
  refine ⟨⟨uid, inp.job_id, inp.status, inp.cover_letter, inp.resume_url⟩,
    ?_, hstatus, rfl, rfl, ?_, ?_⟩
  · unfold create_application
    rw [hjob, huser, hnodup]
    simp
  · unfold create_application
    rw [hjob, huser]
    simp [List.any_append, hnodup]
  · unfold applicationsPairUniqueIndex create_indexes
    decide

/-- Witness for C1 at a concrete store: seeker 3 applies twice to
job 10. -/
theorem C1_amended_check_then_insert_witness :
    ([ownedJob].any (fun j => j.id = applyInput.job_id) = true ∧
      [seekerUser].any (fun u => u.id = 3) = true ∧
      ([] : List AppDoc).any
        (fun a => a.user_id = 3 ∧ a.job_id = applyInput.job_id) = false ∧
      applyInput.status = "applied") ∧
    (∃ doc : AppDoc,
      create_application [] [ownedJob] [seekerUser] 3 applyInput =
          .ok ([] ++ [doc], doc) ∧
        doc.status = "applied" ∧ doc.user_id = 3 ∧ doc.job_id = applyInput.job_id ∧
        create_application ([] ++ [doc]) [ownedJob] [seekerUser] 3 applyInput =
          .error ⟨400, "Application already submitted for this job"⟩ ∧
        ¬ applicationsPairUniqueIndex) :=
  ⟨⟨by decide, by decide, by decide, by decide⟩,
    C1_amended_check_then_insert [] [ownedJob] [seekerUser] 3 applyInput
      (by decide) (by decide) (by decide) (by decide)⟩

/-! ### Job update: authorization outcome and frame -/

/-- C2: the inner logic of `update_job` raises 403 for an employer who
does not own the job, but the handler's blanket `except Exception:`
(job.py line 406) — which, unlike `create_application`, has no
`except HTTPException: raise` before it — catches that `HTTPException`
and replaces it with 400 "Invalid job ID".  The claimed distinct
Forbidden outcome never reaches the client. -/
theorem C2_forbidden_swallowed_to_400 :
    update_job_inner [ownedJob] employerTwoIdentity 10 titleOnlyUpdate 5 =
      .error ⟨403, "Not authorized to update this job"⟩ ∧
    update_job [ownedJob] employerTwoIdentity 10 titleOnlyUpdate 5 =
      .error ⟨400, "Invalid job ID"⟩ := by
  constructor <;> rfl

/-- C7 counterexample: the job's `updated_at` field is not present in
the (title-only) update payload, yet the successful update changes it
from 0 to the request time 5 (job.py line 371 adds `updated_at` to the
`$set` unconditionally). -/
theorem C7_counterexample_updated_at :
    update_job [ownedJob] employerOneIdentity 10 titleOnlyUpdate 5 =
      .ok ([applyJobUpdate ownedJob titleOnlyUpdate 5],
        applyJobUpdate ownedJob titleOnlyUpdate 5) ∧
    (applyJobUpdate ownedJob titleOnlyUpdate 5).updated_at = 5 ∧
    ownedJob.updated_at = 0 := by
  refine ⟨rfl, rfl, rfl⟩

/-- C7 (amended): an owner's partial update succeeds and changes only
the submitted fields, except for the server-maintained `updated_at`
timestamp, which is always set to the request time; every other field
absent from the payload keeps its previous value. -/
theorem C7_amended_partial_update_frame
    (jobs : List JobDoc) (user : Identity) (j : JobDoc)
    (u : JobUpdatePayload) (now : ℤ)
    (hfind : jobs.find? (fun x => x.id = j.id) = some j)
    (hown : j.created_by = user.id)
    (hchange : applyJobUpdate j u now ≠ j) :
    ∃ jobs2 : List JobDoc,
      update_job jobs user j.id u now = .ok (jobs2, applyJobUpdate j u now) ∧
      (u.title = none → (applyJobUpdate j u now).title = j.title) ∧
      (u.description = none →
        (applyJobUpdate j u now).description = j.description) ∧
      (u.company = none → (applyJobUpdate j u now).company = j.company) ∧
      (u.salary_min = none →
        (applyJobUpdate j u now).salary_min = j.salary_min) ∧
      (u.salary_max = none →
        (applyJobUpdate j u now).salary_max = j.salary_max) ∧
      (u.location = none → (applyJobUpdate j u now).location = j.location) ∧
      (u.skills = none → (applyJobUpdate j u now).skills = j.skills) ∧
      (u.experience_required = none →
        (applyJobUpdate j u now).experience_required = j.experience_required) ∧
      (u.work_mode = none →
        (applyJobUpdate j u now).work_mode = j.work_mode) ∧
      (u.company_logo_url = none →
        (applyJobUpdate j u now).company_logo_url = j.company_logo_url) ∧
      (u.company_rating = none →
        (applyJobUpdate j u now).company_rating = j.company_rating) ∧
      (u.reviews_count = none →
        (applyJobUpdate j u now).reviews_count = j.reviews_count) ∧
      (applyJobUpdate j u now).id = j.id ∧
      (applyJobUpdate j u now).created_by = j.created_by ∧
      (applyJobUpdate j u now).posted_date = j.posted_date ∧
      (applyJobUpdate j u now).posted_at = j.posted_at ∧
      (applyJobUpdate j u now).is_active = j.is_active ∧
      (applyJobUpdate j u now).application_count = j.application_count ∧
      (applyJobUpdate j u now).view_count = j.view_count ∧
      (applyJobUpdate j u now).updated_at = now := by
  refine ⟨jobs.map (fun x => if x.id = j.id then applyJobUpdate j u now else x),
    ?_, ?_, ?_, ?_, ?_, ?_, ?_, ?_, ?_, ?_, ?_, ?_, ?_,
    rfl, rfl, rfl, rfl, rfl, rfl, rfl, rfl⟩
  · have hc : ¬ (j.created_by ≠ user.id ∧ user.role ≠ "admin") := by
      intro h
      exact h.1 hown
    simp only [update_job, update_job_inner, hfind, if_neg hc, if_neg hchange]
  all_goals intro h
  all_goals simp [applyJobUpdate, h]

/-- Witness for C7: owner updates only the title of `ownedJob`. -/
theorem C7_amended_partial_update_frame_witness :
    ([ownedJob].find? (fun x => x.id = ownedJob.id) = some ownedJob ∧
      ownedJob.created_by = employerOneIdentity.id ∧
      applyJobUpdate ownedJob titleOnlyUpdate 5 ≠ ownedJob) ∧
    (∃ jobs2 : List JobDoc,
      update_job [ownedJob] employerOneIdentity ownedJob.id titleOnlyUpdate 5 =
        .ok (jobs2, applyJobUpdate ownedJob titleOnlyUpdate 5) ∧
      (titleOnlyUpdate.title = none →
        (applyJobUpdate ownedJob titleOnlyUpdate 5).title = ownedJob.title) ∧
      (titleOnlyUpdate.description = none →
        (applyJobUpdate ownedJob titleOnlyUpdate 5).description =
          ownedJob.description) ∧
      (titleOnlyUpdate.company = none →
        (applyJobUpdate ownedJob titleOnlyUpdate 5).company = ownedJob.company) ∧
      (titleOnlyUpdate.salary_min = none →
        (applyJobUpdate ownedJob titleOnlyUpdate 5).salary_min =
          ownedJob.salary_min) ∧
      (titleOnlyUpdate.salary_max = none →
        (applyJobUpdate ownedJob titleOnlyUpdate 5).salary_max =
          ownedJob.salary_max) ∧
      (titleOnlyUpdate.location = none →
        (applyJobUpdate ownedJob titleOnlyUpdate 5).location =
          ownedJob.location) ∧
      (titleOnlyUpdate.skills = none →
        (applyJobUpdate ownedJob titleOnlyUpdate 5).skills = ownedJob.skills) ∧
      (titleOnlyUpdate.experience_required = none →
        (applyJobUpdate ownedJob titleOnlyUpdate 5).experience_required =
          ownedJob.experience_required) ∧
      (titleOnlyUpdate.work_mode = none →
        (applyJobUpdate ownedJob titleOnlyUpdate 5).work_mode =
          ownedJob.work_mode) ∧
      (titleOnlyUpdate.company_logo_url = none →
        (applyJobUpdate ownedJob titleOnlyUpdate 5).company_logo_url =
          ownedJob.company_logo_url) ∧
      (titleOnlyUpdate.company_rating = none →
        (applyJobUpdate ownedJob titleOnlyUpdate 5).company_rating =
          ownedJob.company_rating) ∧
      (titleOnlyUpdate.reviews_count = none →
        (applyJobUpdate ownedJob titleOnlyUpdate 5).reviews_count =
          ownedJob.reviews_count) ∧
      (applyJobUpdate ownedJob titleOnlyUpdate 5).id = ownedJob.id ∧
      (applyJobUpdate ownedJob titleOnlyUpdate 5).created_by =
        ownedJob.created_by ∧
      (applyJobUpdate ownedJob titleOnlyUpdate 5).posted_date =
        ownedJob.posted_date ∧
      (applyJobUpdate ownedJob titleOnlyUpdate 5).posted_at =
        ownedJob.posted_at ∧
      (applyJobUpdate ownedJob titleOnlyUpdate 5).is_active =
        ownedJob.is_active ∧
      (applyJobUpdate ownedJob titleOnlyUpdate 5).application_count =
        ownedJob.application_count ∧
      (applyJobUpdate ownedJob titleOnlyUpdate 5).view_count =
        ownedJob.view_count ∧
      (applyJobUpdate ownedJob titleOnlyUpdate 5).updated_at = 5) :=
  ⟨⟨by decide, by decide, by decide⟩,
    C7_amended_partial_update_frame [ownedJob] employerOneIdentity ownedJob
      titleOnlyUpdate 5 (by decide) (by decide) (by decide)⟩

/-! ### Registration: validation and conflict detection -/

theorem length_le_utf8Len (s : String) : s.length ≤ utf8Len s := by
  show s.data.length ≤ utf8Len s
  unfold utf8Len
  induction s.data with
  | nil => simp
  | cons c cs ih =>
    have := Char.utf8Size_pos c
    simp only [List.map_cons, List.sum_cons, List.length_cons]
    omega

theorem validate_password_false_of_short {pw : String} (h : pw.length < 8) :
    validate_password pw = false := by
  unfold validate_password
  rw [if_pos h]

theorem validate_password_false_of_no_upper {pw : String}
    (h : pw.data.any Char.isUpper = false) : validate_password pw = false := by
  unfold validate_password
  split_ifs <;> simp_all

theorem validate_password_false_of_no_digit {pw : String}
    (h : pw.data.any Char.isDigit = false) : validate_password pw = false := by
  unfold validate_password
  split_ifs <;> simp_all

theorem validate_password_false_of_no_special {pw : String}
    (h : pw.data.any passwordSpecialChars.contains = false) :
    validate_password pw = false := by
  unfold validate_password
  split_ifs <;> simp_all

/-- Any failure of `validate_password` is surfaced by `register` as some
400 response (possibly an earlier validation message when several
validations fail at once). -/
theorem register_400_of_password {store : List UserDoc}
    {hashFn : String → String} {inp : RegisterInput} {newId : ℕ}
    (h : validate_password inp.password = false) :
    ∃ d, register store hashFn inp newId = .error ⟨400, d⟩ := by
  unfold register
  split_ifs <;> exact ⟨_, rfl⟩

/-- C3: `register` rejects with a 400 validation error any input whose
email fails the address regex, whose password is outside 8-72 bytes or
lacks an upper-case letter, a digit, or a special character, or whose
mobile is not exactly ten digits, or whose role is not one of the three
known roles; and when all validations pass but the email already
exists, the insert's unique-constraint violation (there is no prior
existence check) is mapped to the 400 conflict response. -/
theorem C3_register_validation_and_conflict
    (store : List UserDoc) (hashFn : String → String) (inp : RegisterInput)
    (newId : ℕ) :
    (validate_email inp.email = false →
      register store hashFn inp newId = .error ⟨400, "Invalid email format"⟩) ∧
    (¬ (8 ≤ utf8Len inp.password ∧ utf8Len inp.password ≤ 72) →
      ∃ d, register store hashFn inp newId = .error ⟨400, d⟩) ∧
    (inp.password.data.any Char.isUpper = false →
      ∃ d, register store hashFn inp newId = .error ⟨400, d⟩) ∧
    (inp.password.data.any Char.isDigit = false →
      ∃ d, register store hashFn inp newId = .error ⟨400, d⟩) ∧
    (inp.password.data.any passwordSpecialChars.contains = false →
      ∃ d, register store hashFn inp newId = .error ⟨400, d⟩) ∧
    (validate_mobile inp.mobile = false →
      ∃ d, register store hashFn inp newId = .error ⟨400, d⟩) ∧
    ((["job_seeker", "employer", "admin"].contains inp.role) = false →
      ∃ d, register store hashFn inp newId = .error ⟨400, d⟩) ∧
    (validate_email inp.email = true →
      utf8Len inp.password ≤ 72 →
      validate_password inp.password = true →
      validate_mobile inp.mobile = true →
      (["job_seeker", "employer", "admin"].contains inp.role) = true →
      store.any (fun u => u.email = inp.email) = true →
      register store hashFn inp newId = .error ⟨400, "Email already exists"⟩) := by
  refine ⟨?_, ?_, ?_, ?_, ?_, ?_, ?_, ?_⟩
  · intro h
    unfold register
    rw [if_pos h]
  · intro h
    rcases Nat.lt_or_ge (utf8Len inp.password) 8 with hlt | hge
    · have hshort : inp.password.length < 8 :=
        Nat.lt_of_le_of_lt (length_le_utf8Len inp.password) hlt
      exact register_400_of_password (validate_password_false_of_short hshort)
    · have hlong : 72 < utf8Len inp.password := by omega
      unfold register
      split_ifs <;> exact ⟨_, rfl⟩
  · intro h
    exact register_400_of_password (validate_password_false_of_no_upper h)
  · intro h
    exact register_400_of_password (validate_password_false_of_no_digit h)
  · intro h
    exact register_400_of_password (validate_password_false_of_no_special h)
  · intro h
    unfold register
    split_ifs <;> exact ⟨_, rfl⟩
  · intro h
    unfold register
    split_ifs <;> exact ⟨_, rfl⟩
  · intro hem hby hpw hmo hro hdup
    unfold register
    split_ifs with h1 h2 h3 h4 h5 <;>
      first
        | rfl
        | omega
        | simp_all

/-- Witness for C3: a fully valid registration against a store that
already holds the email fails with the conflict response. -/
theorem C3_register_validation_and_conflict_witness :
    (validate_email regConflictInput.email = true ∧
      utf8Len regConflictInput.password ≤ 72 ∧
      validate_password regConflictInput.password = true ∧
      validate_mobile regConflictInput.mobile = true ∧
      (["job_seeker", "employer", "admin"].contains regConflictInput.role) = true ∧
      [employerOne].any (fun u => u.email = regConflictInput.email) = true) ∧
    register [employerOne] (fun s => s) regConflictInput 5 =
      .error ⟨400, "Email already exists"⟩ :=
  ⟨⟨by decide, by decide, by decide, by decide, by decide, by decide⟩,
    (C3_register_validation_and_conflict [employerOne] (fun s => s)
        regConflictInput 5).2.2.2.2.2.2.2
      (by decide) (by decide) (by decide) (by decide) (by decide) (by decide)⟩

/-! ### Alert matching versus general search: skills semantics -/

/-- C6: for an alert whose only parameter is `skills = ["Go", "SQL"]`,
an active job inside the posted-time window matches the alert query iff
it carries BOTH skills (`$all`, job_alert.py line 200), while the
general search endpoint called with the same two skills matches an
active job iff it carries EITHER skill (`$in`, job.py line 190). -/
theorem C6_alert_all_vs_search_any (j : JobDoc) (t threshold : ℤ)
    (hactive : j.is_active = true) (hposted : j.posted_at = some t)
    (ht : threshold ≤ t) :
    (jobMatchesAlertQuery (skillsOnlyParams ["Go", "SQL"]) threshold j = true ↔
      ("Go" ∈ j.skills ∧ "SQL" ∈ j.skills)) ∧
    (jobMatchesSearchQuery "" "" "" "" 0 0 100 ["Go", "SQL"] j = true ↔
      ("Go" ∈ j.skills ∨ "SQL" ∈ j.skills)) := by
  constructor
  · simp [jobMatchesAlertQuery, skillsOnlyParams, hactive, hposted, ht]
  · simp [jobMatchesSearchQuery, hactive]

/-- Witness for C6 on a job holding both skills. -/
theorem C6_alert_all_vs_search_any_witness :
    (ownedJob.is_active = true ∧ ownedJob.posted_at = some 1000 ∧
        (0:ℤ) ≤ 1000) ∧
      ((jobMatchesAlertQuery (skillsOnlyParams ["Go", "SQL"]) 0 ownedJob = true ↔
          ("Go" ∈ ownedJob.skills ∧ "SQL" ∈ ownedJob.skills)) ∧
        (jobMatchesSearchQuery "" "" "" "" 0 0 100 ["Go", "SQL"] ownedJob = true ↔
          ("Go" ∈ ownedJob.skills ∨ "SQL" ∈ ownedJob.skills))) :=
  ⟨⟨by decide, by decide, by decide⟩,
    C6_alert_all_vs_search_any ownedJob 1000 0 (by decide) (by decide) (by decide)⟩

/-! ### Token verification: role source and the missing active check -/

/-- C8: whenever token verification succeeds, the returned identity's
role is the token's role claim (defaulting to `job_seeker` when the
claim is absent) — for every store, so the stored record's role is
never consulted and a stale token keeps its embedded role. -/
theorem C8_role_from_token (store : List UserDoc) (payload : TokenPayload)
    (now : ℤ) (idn : Identity)
    (hok : get_current_user store payload now = .ok idn) :
    idn.role = payload.role.getD "job_seeker" := by
  cases hsub : payload.sub with
  | none => simp [get_current_user, hsub] at hok
  | some email =>
    by_cases hexp : payload.exp.getD 0 < now
    · simp [get_current_user, hsub, hexp] at hok
    · cases hfind : store.find? (fun x => x.email = email) with
      | none => simp [get_current_user, hsub, hexp, hfind] at hok
      | some u =>
        simp [get_current_user, hsub, hexp, hfind] at hok
        rw [← hok]

/-- Witness for C8: `seekerUser` is stored with role `job_seeker`, but a
still-valid token carrying role `employer` verifies to an identity with
the stale token role. -/
theorem C8_role_from_token_witness :
    (get_current_user [seekerUser] staleRolePayload 0 =
        .ok ⟨3, "seeker@portal.test", "employer"⟩ ∧
      seekerUser.role = "job_seeker") ∧
    (⟨3, "seeker@portal.test", "employer"⟩ : Identity).role =
      staleRolePayload.role.getD "job_seeker" :=
  ⟨⟨by rfl, by decide⟩,
    C8_role_from_token [seekerUser] staleRolePayload 0 _ (by rfl)⟩

/-- C9: a valid, unexpired token whose subject resolves to a stored user
verifies successfully even when that user's `is_active` flag is false —
`get_current_user` never checks the flag — while the same account can
no longer log in: `login` rejects it with 401 "Account is deactivated"
even on a correct password. -/
theorem C9_inactive_token_still_verifies (store : List UserDoc)
    (payload : TokenPayload) (now : ℤ) (email : String) (u : UserDoc)
    (hsub : payload.sub = some email)
    (hexp : ¬ payload.exp.getD 0 < now)
    (hfind : store.find? (fun x => x.email = email) = some u)
    (hinactive : u.is_active = false) :
    get_current_user store payload now =
      .ok ⟨u.id, u.email, payload.role.getD "job_seeker"⟩ ∧
    (∀ verify : String → String → Bool, ∀ password : String,
      ¬ 72 < password.length → ¬ 72 < utf8Len password →
      email ≠ "" → password ≠ "" →
      verify password u.hashed_password = true →
      login store verify email password =
        .error ⟨401, "Account is deactivated"⟩) := by
  constructor
  · simp [get_current_user, hsub, hexp, hfind]
  · intro verify password hlen hbytes hemail hpw hverify
    have hne : ¬ (email = "" ∨ password = "") := by
      intro hor
      rcases hor with h | h
      · exact hemail h
      · exact hpw h
    simp only [login, if_neg hlen]
    rw [if_neg hbytes, if_neg hne, hfind]
    simp [hverify, hinactive]

/-- Witness for C9: the deactivated `inactiveUser` still verifies by
token but cannot log in. -/
theorem C9_inactive_token_still_verifies_witness :
    (inactiveUserPayload.sub = some "inactive@portal.test" ∧
      ¬ inactiveUserPayload.exp.getD 0 < 0 ∧
      [inactiveUser].find? (fun x => x.email = "inactive@portal.test") =
        some inactiveUser ∧
      inactiveUser.is_active = false) ∧
    (get_current_user [inactiveUser] inactiveUserPayload 0 =
        .ok ⟨inactiveUser.id, inactiveUser.email,
          inactiveUserPayload.role.getD "job_seeker"⟩ ∧
      login [inactiveUser] (fun x y => x ++ y = "pwh4") "inactive@portal.test"
          "pw" = .error ⟨401, "Account is deactivated"⟩) :=
  ⟨⟨by decide, by decide, by decide, by decide⟩,
    ⟨(C9_inactive_token_still_verifies [inactiveUser] inactiveUserPayload 0
        "inactive@portal.test" inactiveUser (by decide) (by decide) (by decide)
        (by decide)).1,
      (C9_inactive_token_still_verifies [inactiveUser] inactiveUserPayload 0
        "inactive@portal.test" inactiveUser (by decide) (by decide) (by decide)
        (by decide)).2 (fun x y => x ++ y = "pwh4") "pw" (by decide) (by decide)
        (by decide) (by decide) (by decide)⟩⟩

end JobPortal
